import Mathlib

/-!
Shallow embedding of the poker-coach application's two core functions
(`get_best_model_name` and `calculate_pot_odds` from `app.py`), together
with theorems settling the specification's claims about them.

Python floats are modelled as exact rationals (`ℚ`); Python's `round`
(banker's rounding, round half to even) is modelled by `pyRound`; a raised
Python exception is modelled as `Except.error` carrying the exception
message, while a normal return is `Except.ok`.
-/

/-- Marker substring for fast-tier models (`"flash"` in the source). -/
def flashMarker : String := "flash"

/-- Marker substring for experimental models (`"exp"` in the source). -/
def expMarker : String := "exp"

/-- Marker substring for latest-alias models (`"latest"` in the source). -/
def latestMarker : String := "latest"

/-- Marker substring for reduced-capacity models (`"8b"` in the source). -/
def reducedMarker : String := "8b"

/-- Marker substring for capable-tier models (`"pro"` in the spec's examples). -/
def proMarker : String := "pro"

/-- Generation method the source filters the catalog by. -/
def genContentMethod : String := "generateContent"

/-- Hardcoded fallback identifier returned by the source's selector. -/
def FALLBACK : String := "gemini-1.5-flash"

/-- Check whether `sub` occurs at the head of `l` (character-wise). -/
def matchesAt : List Char → List Char → Bool
  | [], _ => true
  | _ :: _, [] => false
  | a :: sub, b :: rest => a == b && matchesAt sub rest

/-- Check whether `sub` occurs contiguously anywhere in `l`. -/
def substrSearch (sub : List Char) : List Char → Bool
  | [] => sub.isEmpty
  | b :: rest => matchesAt sub (b :: rest) || substrSearch sub rest

/-- Python's substring containment test `sub in s`. -/
def pyIn (sub s : String) : Bool := substrSearch sub.data s.data

/-- Condition of the source's first selection loop: `"flash" in m and "exp" in m`. -/
def rule1 (m : String) : Bool := pyIn flashMarker m && pyIn expMarker m

/-- Condition of the source's second selection loop: `"flash" in m and "latest" in m`. -/
def rule2 (m : String) : Bool := pyIn flashMarker m && pyIn latestMarker m

/-- Condition of the source's third selection loop: `"flash" in m and "8b" not in m`. -/
def rule3 (m : String) : Bool := pyIn flashMarker m && !(pyIn reducedMarker m)

/-- Variant of `rule3` that additionally excludes experimental identifiers,
as the spec's rule 3 states it. -/
def rule3NoExp (m : String) : Bool :=
  pyIn flashMarker m && !(pyIn reducedMarker m) && !(pyIn expMarker m)

/-- Selection over a catalog of identifier strings: the chain of three
`for`-loops of `get_best_model_name`, each returning the first identifier
satisfying its condition, followed by the hardcoded fallback. -/
def selectFromCatalog (ms : List String) : String :=
  match ms.find? rule1 with
  | some m => m
  | none =>
    match ms.find? rule2 with
    | some m => m
    | none =>
      match ms.find? rule3 with
      | some m => m
      | none => FALLBACK

/-- Variant selector whose third loop uses `rule3NoExp` instead of `rule3`
(i.e. additionally requires `"exp" not in m`), for the equivalence claim. -/
def selectFromCatalogGuarded (ms : List String) : String :=
  match ms.find? rule1 with
  | some m => m
  | none =>
    match ms.find? rule2 with
    | some m => m
    | none =>
      match ms.find? rule3NoExp with
      | some m => m
      | none => FALLBACK

/-- One entry of the remote model listing: its name and the generation
methods it supports. -/
structure ModelInfo where
  name : String
  supported_generation_methods : List String

/-- The source's catalog filter:
`[m.name for m in genai.list_models() if 'generateContent' in m.supported_generation_methods]`. -/
def availableModels (models : List ModelInfo) : List String :=
  (models.filter (fun m => m.supported_generation_methods.contains genContentMethod)).map
    (fun m => m.name)

/-- The source's `get_best_model_name`: the catalog fetch either fails
(`Except.error`, covered by the bare `except:` which returns the fallback)
or yields a model listing that is filtered and scanned by the three loops. -/
def get_best_model_name (fetched : Except String (List ModelInfo)) : String :=
  match fetched with
  | Except.error _ => FALLBACK
  | Except.ok models => selectFromCatalog (availableModels models)

lemma list_find_eq_of_agree {α : Type} {p q : α → Bool} :
    ∀ {l : List α}, (∀ a ∈ l, p a = q a) → l.find? p = l.find? q
  | [], _ => rfl
  | a :: l, h => by
    have ha := h a (List.mem_cons_self a l)
    simp only [List.find?, ha]
    cases hq : q a with
    | true => rfl
    | false => exact list_find_eq_of_agree (fun b hb => h b (List.mem_cons_of_mem a hb))

lemma rule3_agree_of_no_rule1 {ms : List String} (h : ms.find? rule1 = none) :
    ms.find? rule3 = ms.find? rule3NoExp := by
  apply list_find_eq_of_agree
  intro m hm
  have h1 : ¬(rule1 m = true) := List.find?_eq_none.mp h m hm
  simp only [rule1, Bool.and_eq_true, not_and] at h1
  simp only [rule3, rule3NoExp]
  cases hf : pyIn flashMarker m with
  | false => simp
  | true => simp [h1 hf]

lemma pyIn_flash_imp_ne_empty {m : String} (h : pyIn flashMarker m = true) : m ≠ "" := by
  intro hm
  subst hm
  exact absurd h (by decide)

lemma selectFromCatalog_ne_empty (ms : List String) : selectFromCatalog ms ≠ "" := by
  unfold selectFromCatalog
  cases h1 : ms.find? rule1 with
  | some m =>
    have := List.find?_some h1
    simp only [rule1, Bool.and_eq_true] at this
    exact pyIn_flash_imp_ne_empty this.1
  | none =>
    cases h2 : ms.find? rule2 with
    | some m =>
      have := List.find?_some h2
      simp only [rule2, Bool.and_eq_true] at this
      exact pyIn_flash_imp_ne_empty this.1
    | none =>
      cases h3 : ms.find? rule3 with
      | some m =>
        have := List.find?_some h3
        simp only [rule3, Bool.and_eq_true] at this
        exact pyIn_flash_imp_ne_empty this.1
      | none => decide

lemma selectFromCatalog_mem_or_fallback (ms : List String) :
    selectFromCatalog ms ∈ ms ∨ selectFromCatalog ms = FALLBACK := by
  unfold selectFromCatalog
  cases h1 : ms.find? rule1 with
  | some m => exact Or.inl (List.mem_of_find?_eq_some h1)
  | none =>
    cases h2 : ms.find? rule2 with
    | some m => exact Or.inl (List.mem_of_find?_eq_some h2)
    | none =>
      cases h3 : ms.find? rule3 with
      | some m => exact Or.inl (List.mem_of_find?_eq_some h3)
      | none => exact Or.inr rfl

/-- Message of the sentinel string the source returns when the pot is zero. -/
def zeroPotMsg : String := "Error: Pot is zero"

/-- Message of the exception Python raises on division by zero. -/
def zeroDivMsg : String := "ZeroDivisionError: division by zero"

/-- Python division: raises `ZeroDivisionError` when the divisor is zero. -/
def pydiv (a b : ℚ) : Except String ℚ :=
  if b = 0 then Except.error zeroDivMsg else Except.ok (a / b)

/-- Round half to even to an integer, as Python's `round` does. -/
def roundHalfEven (q : ℚ) : ℤ :=
  if q - ⌊q⌋ < 1/2 then ⌊q⌋
  else if 1/2 < q - ⌊q⌋ then ⌊q⌋ + 1
  else if ⌊q⌋ % 2 = 0 then ⌊q⌋ else ⌊q⌋ + 1

/-- Python's `round(q, n)` on exact rationals: round `q` to `n` decimal
places, halves to even. -/
def pyRound (q : ℚ) (n : ℕ) : ℚ := (roundHalfEven (q * 10 ^ n) : ℚ) / 10 ^ n

/-- Value returned by `calculate_pot_odds`: either the sentinel string of
the zero-pot branch, or the dict of the normal branch. The dict's
`pot_odds_ratio` entry is the f-string `"<ratio> : 1"`; its formatting is
abstracted to the rounded ratio it displays. -/
inductive PotOddsReturn : Type
  | errStr (s : String)
  | result (required_equity_percent : ℚ) (pot_odds_ratio : ℚ)
deriving DecidableEq

/-- The source's `calculate_pot_odds`: `total_pot = pot_size_before_call +
bet_to_call`; if it is zero, return the sentinel string; otherwise compute
`required_equity = bet_to_call / total_pot * 100` and `odds_ratio =
pot_size_before_call / bet_to_call` (this second division raises when
`bet_to_call == 0`), and return both rounded. -/
def calculate_pot_odds (bet_to_call pot_size_before_call : ℚ) :
    Except String PotOddsReturn :=
  let total_pot := pot_size_before_call + bet_to_call
  if total_pot = 0 then Except.ok (PotOddsReturn.errStr zeroPotMsg)
  else do
    let required_equity ← pydiv bet_to_call total_pot
    let odds_ratio ← pydiv pot_size_before_call bet_to_call
    Except.ok (PotOddsReturn.result (pyRound (required_equity * 100) 2) (pyRound odds_ratio 1))

lemma roundHalfEven_nonneg {q : ℚ} (h : 0 ≤ q) : 0 ≤ roundHalfEven q := by
  have hf : 0 ≤ ⌊q⌋ := Int.floor_nonneg.mpr h
  unfold roundHalfEven
  split_ifs <;> omega

lemma roundHalfEven_le {q : ℚ} {n : ℤ} (h : q ≤ n) : roundHalfEven q ≤ n := by
  have hf : ⌊q⌋ ≤ n := by
    have := Int.floor_mono h
    simpa using this
  unfold roundHalfEven
  split_ifs with h1 h2 h3
  · exact hf
  · have hq : (⌊q⌋ : ℚ) + 1/2 < q := by linarith
    have hlt : (⌊q⌋ : ℚ) < (n : ℚ) := by linarith
    have : ⌊q⌋ < n := by exact_mod_cast hlt
    omega
  · exact hf
  · have hr : q - ⌊q⌋ = 1/2 := le_antisymm (not_lt.mp h2) (not_lt.mp h1)
    have hq : (⌊q⌋ : ℚ) + 1/2 = q := by linarith
    have hlt : (⌊q⌋ : ℚ) < (n : ℚ) := by linarith
    have : ⌊q⌋ < n := by exact_mod_cast hlt
    omega

lemma pyRound_nonneg {q : ℚ} (h : 0 ≤ q) (n : ℕ) : 0 ≤ pyRound q n := by
  unfold pyRound
  apply div_nonneg
  · exact_mod_cast roundHalfEven_nonneg (by positivity)
  · positivity

lemma pyRound_le_hundred {q : ℚ} (h : q ≤ 100) : pyRound q 2 ≤ 100 := by
  unfold pyRound
  rw [div_le_iff₀ (by norm_num : (0:ℚ) < 10 ^ 2)]
  have hle : roundHalfEven (q * 10 ^ 2) ≤ (10000 : ℤ) := by
    apply roundHalfEven_le
    push_cast
    linarith
  calc (roundHalfEven (q * 10 ^ 2) : ℚ) ≤ 10000 := by exact_mod_cast hle
    _ = 100 * 10 ^ 2 := by norm_num

/-- Identifier used in the spec's capable-tier examples. -/
def proLatestId : String := "models/x-pro-latest"

/-- Identifier used in the spec's fast-tier latest-alias example. -/
def flashLatestId : String := "models/x-flash-latest"

/-- Identifier used in the spec's reduced-capacity example. -/
def flashReducedId : String := "models/x-flash-8b"

/-- Identifier used in the spec's plain fast-tier example. -/
def flashPlainId : String := "models/x-flash"

/-- C1: for every bet_to_call > 0 and pot_size_before_call ≥ 0,
`calculate_pot_odds` returns a result whose `required_equity_percent`
equals `round(bet_to_call / (bet_to_call + pot_size_before_call) * 100, 2)`,
and this value lies within [0, 100]. -/
theorem calculate_pot_odds_required_equity (bet pot : ℚ)
    (hb : 0 < bet) (hp : 0 ≤ pot) :
    calculate_pot_odds bet pot =
      Except.ok (PotOddsReturn.result (pyRound (bet / (bet + pot) * 100) 2)
        (pyRound (pot / bet) 1)) ∧
    0 ≤ pyRound (bet / (bet + pot) * 100) 2 ∧
    pyRound (bet / (bet + pot) * 100) 2 ≤ 100 := by
  have htpos : 0 < bet + pot := by linarith
  have ht : pot + bet ≠ 0 := by rw [add_comm]; exact htpos.ne'
  have hv1 : 0 ≤ bet / (bet + pot) * 100 := by positivity
  have hv2 : bet / (bet + pot) * 100 ≤ 100 := by
    have h1 : bet / (bet + pot) ≤ 1 := (div_le_one htpos).mpr (by linarith)
    calc bet / (bet + pot) * 100 ≤ 1 * 100 :=
          mul_le_mul_of_nonneg_right h1 (by norm_num)
      _ = 100 := by norm_num
  refine ⟨?_, pyRound_nonneg hv1 2, pyRound_le_hundred hv2⟩
  simp [calculate_pot_odds, pydiv, ht, htpos.ne', hb.ne', add_comm pot bet,
    Bind.bind, Except.bind]

/-- C1 witness: `calculate_pot_odds 10 0` yields
`required_equity_percent == 100.0` (and odds ratio 0). -/
theorem calculate_pot_odds_required_equity_witness :
    (0:ℚ) < 10 ∧ (0:ℚ) ≤ 0 ∧
    calculate_pot_odds 10 0 = Except.ok (PotOddsReturn.result 100 0) := by
  have h := calculate_pot_odds_required_equity 10 0 (by norm_num) (le_refl 0)
  refine ⟨by norm_num, le_refl 0, ?_⟩
  rw [h.1]
  have e1 : pyRound ((10:ℚ) / (10 + 0) * 100) 2 = 100 := by
    norm_num [pyRound, roundHalfEven]
  have e2 : pyRound ((0:ℚ) / 10) 1 = 0 := by
    norm_num [pyRound, roundHalfEven]
  rw [e1, e2]

/-- C2 (actual code behaviour at the failing input): `calculate_pot_odds 0 50`
raises `ZeroDivisionError` from the odds-ratio division
`pot_size_before_call / bet_to_call` instead of returning a
`NoCallRequired` sentinel with `required_equity_percent == 0.0`. -/
theorem calculate_pot_odds_zero_call_raises :
    calculate_pot_odds 0 50 = Except.error zeroDivMsg := by
  norm_num [calculate_pot_odds, pydiv, Bind.bind, Except.bind]

/-- C3 counterexample: in the catalog `[proLatestId]` no fast-tier rule
matches and the identifier carries the capable-tier and latest-alias
markers, yet the selector does not return it (it returns the fallback). -/
theorem capable_tier_rule_counterexample :
    ([proLatestId].find? rule1 = none ∧
     [proLatestId].find? rule2 = none ∧
     [proLatestId].find? rule3 = none ∧
     [proLatestId].find? rule3NoExp = none) ∧
    (pyIn proMarker proLatestId = true ∧
     pyIn latestMarker proLatestId = true) ∧
    selectFromCatalog [proLatestId] ≠ proLatestId := by decide

/-- C3 (amended): when no identifier matches any fast-tier rule, the
selector returns the hardcoded fallback; it has no capable-tier rules. -/
theorem no_fast_tier_match_falls_back (ms : List String)
    (h1 : ms.find? rule1 = none) (h2 : ms.find? rule2 = none)
    (h3 : ms.find? rule3 = none) :
    selectFromCatalog ms = FALLBACK := by
  simp [selectFromCatalog, h1, h2, h3]

/-- C3 witness: the amended claim at the concrete catalog `[proLatestId]`. -/
theorem no_fast_tier_match_falls_back_witness :
    [proLatestId].find? rule1 = none ∧ [proLatestId].find? rule2 = none ∧
    [proLatestId].find? rule3 = none ∧
    selectFromCatalog [proLatestId] = FALLBACK :=
  ⟨by decide, by decide, by decide,
    no_fast_tier_match_falls_back [proLatestId] (by decide) (by decide) (by decide)⟩

/-- C4: whenever `pot_size_before_call + bet_to_call = 0`,
`calculate_pot_odds` returns the zero-pot sentinel and produces no numeric
result. -/
theorem calculate_pot_odds_zero_total_sentinel (bet pot : ℚ)
    (h : pot + bet = 0) :
    calculate_pot_odds bet pot = Except.ok (PotOddsReturn.errStr zeroPotMsg) ∧
    ∀ re ratio : ℚ,
      calculate_pot_odds bet pot ≠ Except.ok (PotOddsReturn.result re ratio) := by
  have h1 : calculate_pot_odds bet pot = Except.ok (PotOddsReturn.errStr zeroPotMsg) := by
    simp [calculate_pot_odds, h]
  refine ⟨h1, ?_⟩
  intro re ratio hcontra
  rw [h1] at hcontra
  simp at hcontra

/-- C4 witness: `calculate_pot_odds 0 0` returns the zero-pot sentinel. -/
theorem calculate_pot_odds_zero_total_sentinel_witness :
    (0:ℚ) + 0 = 0 ∧
    calculate_pot_odds 0 0 = Except.ok (PotOddsReturn.errStr zeroPotMsg) :=
  ⟨by norm_num, (calculate_pot_odds_zero_total_sentinel 0 0 (by norm_num)).1⟩

/-- C5: the selector on the empty catalog returns the fixed fallback, a
failed catalog fetch also returns the fallback, and on every input the
selector returns some (non-empty) identifier rather than failing outward. -/
theorem selector_total_with_fallback :
    selectFromCatalog [] = FALLBACK ∧
    (∀ e : String, get_best_model_name (Except.error e) = FALLBACK) ∧
    (∀ fetched : Except String (List ModelInfo), get_best_model_name fetched ≠ "") := by
  refine ⟨rfl, fun e => rfl, ?_⟩
  intro fetched
  cases fetched with
  | error e => exact (by decide : FALLBACK ≠ "")
  | ok models => exact selectFromCatalog_ne_empty _

/-- C6: if no identifier matches rule 1, the selector returns the first
identifier containing the fast-tier and latest-alias markers, ahead of any
capable-tier entry. -/
theorem rule2_first_flash_latest (ms : List String) (m₀ : String)
    (h1 : ms.find? rule1 = none) (h2 : ms.find? rule2 = some m₀) :
    selectFromCatalog ms = m₀ := by
  simp [selectFromCatalog, h1, h2]

/-- C6 witness: `select([proLatestId, flashLatestId])` returns the
flash-latest entry, not the pro entry. -/
theorem rule2_first_flash_latest_witness :
    [proLatestId, flashLatestId].find? rule1 = none ∧
    [proLatestId, flashLatestId].find? rule2 = some flashLatestId ∧
    selectFromCatalog [proLatestId, flashLatestId] = flashLatestId ∧
    flashLatestId ≠ proLatestId :=
  ⟨by decide, by decide,
    rule2_first_flash_latest [proLatestId, flashLatestId] flashLatestId
      (by decide) (by decide), by decide⟩

/-- C7: if no identifier matches rules 1 or 2, the selector returns the
first identifier containing the fast-tier marker but neither the
reduced-capacity nor the experimental marker. -/
theorem rule3_first_flash_not_reduced (ms : List String) (m₀ : String)
    (h1 : ms.find? rule1 = none) (h2 : ms.find? rule2 = none)
    (h3 : ms.find? rule3NoExp = some m₀) :
    selectFromCatalog ms = m₀ := by
  have hagree := rule3_agree_of_no_rule1 h1
  simp [selectFromCatalog, h1, h2, hagree, h3]

/-- C7 witness: `select([flashReducedId, flashPlainId])` returns
`flashPlainId`, excluding the reduced-capacity variant. -/
theorem rule3_first_flash_not_reduced_witness :
    [flashReducedId, flashPlainId].find? rule1 = none ∧
    [flashReducedId, flashPlainId].find? rule2 = none ∧
    [flashReducedId, flashPlainId].find? rule3NoExp = some flashPlainId ∧
    selectFromCatalog [flashReducedId, flashPlainId] = flashPlainId :=
  ⟨by decide, by decide, by decide,
    rule3_first_flash_not_reduced [flashReducedId, flashPlainId] flashPlainId
      (by decide) (by decide) (by decide)⟩

/-- C8: both core functions are deterministic — equal inputs give equal
outputs, with no hidden state. -/
theorem core_functions_deterministic :
    (∀ ms : List String, selectFromCatalog ms = selectFromCatalog ms) ∧
    (∀ bet pot : ℚ, calculate_pot_odds bet pot = calculate_pot_odds bet pot) :=
  ⟨fun _ => rfl, fun _ _ => rfl⟩

/-- C9: the selector whose third loop also excludes experimental
identifiers is observationally equivalent to the source's selector,
because the first loop already catches every flash-and-exp identifier. -/
theorem loop3_exp_guard_equiv (ms : List String) :
    selectFromCatalog ms = selectFromCatalogGuarded ms := by
  unfold selectFromCatalog selectFromCatalogGuarded
  cases h1 : ms.find? rule1 with
  | some m => rfl
  | none => rw [rule3_agree_of_no_rule1 h1]

/-- C10: the selector's result is always an element of the input catalog
or the literal fallback string, and is never the empty string. -/
theorem selector_result_in_catalog_or_fallback (ms : List String) :
    (selectFromCatalog ms ∈ ms ∨ selectFromCatalog ms = "gemini-1.5-flash") ∧
    selectFromCatalog ms ≠ "" ∧ FALLBACK = "gemini-1.5-flash" :=
  ⟨selectFromCatalog_mem_or_fallback ms, selectFromCatalog_ne_empty ms, rfl⟩
